import Mathlib

/-!
# Story Guardian: violation detection and correction engine

Shallow embedding of the core of `src/index.js` (a rule-based validator and
corrector for narrative prose).  JavaScript regular expressions are embedded
as a small backtracking matcher over an explicit `RE` syntax tree; the
`lastIndex` state that JavaScript keeps on every regex object with the `g`
flag is threaded explicitly as a `List Nat` (one entry per element of
`FORBIDDEN_PATTERNS`, the only regexes on which the code calls `.test`).
The external rewrite collaborator (`generateQuietPrompt`) is modelled as an
`Except Unit String` input to `correctMessage`.
-/

set_option maxRecDepth 10000

namespace StoryGuardian

/-! ## Character helpers -/

/-- Sentence-terminator characters, the class `[.!?]` of the sentence regex. -/
def isTermChar (c : Char) : Bool := c = '.' || c = '!' || c = '?'

/-- JavaScript `\w`, i.e. `[A-Za-z0-9_]`. -/
def isWordChar (c : Char) : Bool := c.isAlpha || c.isDigit || c = '_'

/-- Case-insensitive character comparison, as used by the `i` regex flag
(ASCII folding; all pattern characters in this code are ASCII). -/
def eqI (d c : Char) : Bool := d.toLower = c.toLower

/-! ## Regex syntax and backtracking matcher

Constructors cover exactly what the regexes of `src/index.js` need:
case-insensitive literals, character classes (`.` and `\w`), word
boundaries (`\b`), alternation, concatenation and greedy star. -/

inductive RE where
  | eps : RE
  | liti : Char → RE
  | cls : (Char → Bool) → RE
  | wb : RE
  | alt : RE → RE → RE
  | cat : RE → RE → RE
  | star : RE → RE

/-- The `.` class: any character except a line terminator. -/
def anyChar : RE := RE.cls (fun c => !(c = '\n' || c = '\r'))

/-- The `\w` class. -/
def wordCharRE : RE := RE.cls isWordChar

/-- Is position `i` of `cs` occupied by a word character? -/
def isWordAt (cs : List Char) (i : Nat) : Bool :=
  match cs.get? i with
  | some c => isWordChar c
  | none => false

/-- JavaScript `\b`: the word-ness of the characters on the two sides of
position `pos` differs (out of range counts as non-word). -/
def atWordBoundary (cs : List Char) (pos : Nat) : Bool :=
  (if pos = 0 then false else isWordAt cs (pos - 1)) != isWordAt cs pos

/-- Backtracking matcher in continuation style.  `reRun fuel r cs pos k`
tries to match `r` at position `pos` of `cs` and calls `k` with the
position after the part `r` consumed; alternation prefers its left branch
and star is greedy, exactly the JavaScript backtracking order, so the
result is the end position JavaScript would report.  `fuel` bounds the
recursion depth; every constructor peels one unit and star iterations
consume at least one character, so `2 * cs.length + 200` is enough for
every pattern in this file. -/
def reRun : Nat → RE → List Char → Nat → (Nat → Option Nat) → Option Nat
  | 0, _, _, _, _ => none
  | f + 1, r, cs, pos, k =>
    match r with
    | .eps => k pos
    | .liti c =>
      match cs.get? pos with
      | some d => if eqI d c then k (pos + 1) else none
      | none => none
    | .cls p =>
      match cs.get? pos with
      | some d => if p d then k (pos + 1) else none
      | none => none
    | .wb => if atWordBoundary cs pos then k pos else none
    | .alt a b => (reRun f a cs pos k).orElse (fun _ => reRun f b cs pos k)
    | .cat a b => reRun f a cs pos (fun p2 => reRun f b cs p2 k)
    | .star r0 =>
      (reRun f r0 cs pos
        (fun p2 => if pos < p2 then reRun f (.star r0) cs p2 k else none)).orElse
        (fun _ => k pos)

/-- End position of the match of `r` starting exactly at `pos`, if any. -/
def matchAt (r : RE) (cs : List Char) (pos : Nat) : Option Nat :=
  reRun (2 * cs.length + 200) r cs pos (fun p => some p)

/-- Leftmost match of `r` in `cs` starting at or after `start`
(start and end positions), mirroring the search loop of
`RegExpBuiltinExec`. -/
def firstMatchFrom (r : RE) (cs : List Char) (start : Nat) : Option (Nat × Nat) :=
  (List.range' start (cs.length + 1 - start)).findSome?
    (fun p => (matchAt r cs p).map (fun e => (p, e)))

/-- `regex.test(s)` for a regex with the `g` flag: search from `lastIndex`;
on success the new `lastIndex` is the match end, on failure it is reset
to `0`. -/
def testG (r : RE) (s : String) (lastIndex : Nat) : Bool × Nat :=
  match firstMatchFrom r s.data lastIndex with
  | some (_, e) => (true, e)
  | none => (false, 0)

/-- All matches, as produced by `String.prototype.matchAll` on a `g` regex
starting from `lastIndex = start` (empty matches would advance by one;
every pattern in this file only produces non-empty matches). -/
def allMatches : Nat → RE → List Char → Nat → List (Nat × Nat)
  | 0, _, _, _ => []
  | f + 1, r, cs, start =>
    match firstMatchFrom r cs start with
    | none => []
    | some (b, e) => (b, e) :: allMatches f r cs (if e ≤ b then b + 1 else e)

/-- `[...s.matchAll(r)]` for a freshly created (or never-`test`ed) regex. -/
def jsMatchAll (r : RE) (s : String) : List (Nat × Nat) :=
  allMatches (s.data.length + 1) r s.data 0

/-- `regex.test(s)` for a regex without the `g` flag (stateless). -/
def reTest (r : RE) (s : String) : Bool :=
  (firstMatchFrom r s.data 0).isSome

/-- The substring of `cs` from `b` (inclusive) to `e` (exclusive). -/
def sliceStr (cs : List Char) (b e : Nat) : String :=
  String.mk ((cs.drop b).take (e - b))

/-! ## Pattern construction helpers -/

/-- A sequence of case-insensitive literal characters, then continue with `r`. -/
def litiSeq : List Char → RE → RE
  | [], r => r
  | c :: cs, r => RE.cat (RE.liti c) (litiSeq cs r)

/-- A case-insensitive literal string, then continue with `r`. -/
def litiS (s : String) (r : RE) : RE := litiSeq s.data r

/-- A group of literal word alternatives `(a|b|c)`, left-to-right as in
JavaScript alternation. -/
def grpAlt : List String → RE
  | [] => RE.eps
  | [w] => litiS w RE.eps
  | w :: ws => RE.alt (litiS w RE.eps) (grpAlt ws)

/-! ## The pattern library (lines 33-67 of `src/index.js`)

Each forbidden pattern is paired with its `source` string, which the code
stores on the violation record. -/

/-- `FORBIDDEN_PATTERNS`, all with flags `gi`. -/
def FORBIDDEN_PATTERNS : List (RE × String) :=
  [ (litiS "one day at a time" RE.eps, "one day at a time"),
    (RE.cat (grpAlt ["I", "we", "they"])
      (litiS " " (RE.cat (grpAlt ["would", "will", "must"])
        (litiS " " (RE.cat (RE.star anyChar)
          (grpAlt ["protect", "ensure", "make sure"]))))),
     "(I|we|they) (would|will|must) .*(protect|ensure|make sure)"),
    (litiS "even " (RE.cat (grpAlt ["gods", "people", "characters"])
      (litiS " " (grpAlt ["had to", "must", "need to"]))),
     "even (gods|people|characters) (had to|must|need to)"),
    (RE.cat (grpAlt ["this was", "that was"])
      (litiS " " (RE.cat (RE.star anyChar)
        (litiS " and " (RE.cat (grpAlt ["I", "we", "they"])
          (litiS " " (RE.cat (grpAlt ["was", "were"]) (litiS " going to" RE.eps))))))),
     "(this was|that was) .* and (I|we|they) (was|were) going to"),
    (litiS "standing " (RE.cat (grpAlt ["back", "there"])
      (litiS " to " (grpAlt ["survey", "appreciate", "marvel", "contemplate"]))),
     "standing (back|there) to (survey|appreciate|marvel|contemplate)"),
    (litiS ". " (RE.cat wordCharRE (RE.cat (RE.star wordCharRE)
      (litiS " had to handle the basics" RE.eps))),
     "\\. \\w+ had to handle the basics"),
    (litiS "fortune cookie" RE.eps, "fortune cookie") ]

/-- `EMOTION_LABELS`, all with flags `gi`.  Their `lastIndex` is never
mutated (the code only uses `matchAll` on them, which operates on a copy),
so they carry no state here. -/
def EMOTION_LABELS : List RE :=
  [ litiS "I felt "
      (grpAlt ["angry", "sad", "happy", "scared", "worried", "anxious", "nervous", "excited"]),
    RE.cat (grpAlt ["he", "she", "they"])
      (litiS " " (RE.cat (grpAlt ["seemed", "appeared", "looked"])
        (litiS " " (grpAlt ["sad", "happy", "angry", "worried", "nervous"])))),
    litiS "I was " (grpAlt ["angry", "sad", "happy", "scared", "terrified", "elated"]) ]

/-- `GOOD_ENDING_TYPES`, flattened in `Object.values` order:
physicalAction, dialogue, sensory, interruption. -/
def GOOD_ENDING_TYPES : List (List String) :=
  [ ["grabbed", "reached", "turned", "walked", "opened", "closed",
     "pulled", "pushed", "picked up", "set down"],
    ["\"", "said", "asked", "called", "muttered", "whispered"],
    ["heard", "saw", "felt", "smelled", "tasted",
     "buzzed", "rang", "slammed", "creaked"],
    ["door opened", "phone rang", "alarm", "knock", "crash",
     "footsteps", "voice"] ]

/-- `/\b(I am|we are|they are|he is|she is)\b/i` from `checkDialogue`. -/
def formalRE : RE :=
  RE.cat RE.wb (RE.cat (grpAlt ["I am", "we are", "they are", "he is", "she is"]) RE.wb)

/-- `/formal|lord|lady|your (majesty|highness)/i` from `checkDialogue`. -/
def exemptRE : RE :=
  RE.alt (litiS "formal" RE.eps)
    (RE.alt (litiS "lord" RE.eps)
      (RE.alt (litiS "lady" RE.eps)
        (litiS "your " (grpAlt ["majesty", "highness"]))))

/-- Initial regex state: every `FORBIDDEN_PATTERNS` element has
`lastIndex = 0`. -/
def initState : List Nat := [0, 0, 0, 0, 0, 0, 0]

/-! ## String utilities used by the code -/

/-- `text.match(/[^.!?]+[.!?]+/g) || []`, specialised: a match is a maximal
run of non-terminators directly followed by a maximal run of terminators.
`fuel` only needs to exceed the input length. -/
def splitSentencesF : Nat → List Char → List (List Char)
  | 0, _ => []
  | _, [] => []
  | f + 1, c :: cs =>
    if isTermChar c then splitSentencesF f cs
    else
      let nonterm := List.takeWhile (fun x => !isTermChar x) (c :: cs)
      let rest := List.dropWhile (fun x => !isTermChar x) (c :: cs)
      match rest with
      | [] => []
      | _ :: _ =>
        let terms := rest.takeWhile isTermChar
        let rest2 := rest.dropWhile isTermChar
        (nonterm ++ terms) :: splitSentencesF f rest2

/-- The sentence list of a text (empty when the regex returns `null`). -/
def jsSentences (s : String) : List String :=
  (splitSentencesF (s.data.length + 1) s.data).map (fun l => String.mk l)

/-- `getLastSentences` (lines 430-433): the last `n` sentences. -/
def getLastSentences (text : String) (n : Nat) : List String :=
  let sentences := jsSentences text
  sentences.drop (sentences.length - n)

/-- `text.split(/\s+/)`: fields separated by maximal whitespace runs, with
an empty leading (trailing) field when the text starts (ends) with
whitespace.  (JavaScript `\s` also covers some Unicode space characters;
the texts in this development only use ASCII whitespace.) -/
def wsSplitF : Nat → List Char → List Char → List (List Char)
  | 0, _, acc => [acc.reverse]
  | _, [], acc => [acc.reverse]
  | f + 1, c :: cs, acc =>
    if c.isWhitespace then
      acc.reverse :: wsSplitF f (cs.dropWhile Char.isWhitespace) []
    else wsSplitF f cs (c :: acc)

/-- `s.split(/\s+/)` (on the empty string JavaScript returns `[""]`). -/
def jsSplitWs (s : String) : List String :=
  (wsSplitF (s.data.length + 1) s.data []).map (fun l => String.mk l)

/-- `s.trim()` (ASCII whitespace). -/
def jsTrim (s : String) : String :=
  String.mk (((s.data.dropWhile Char.isWhitespace).reverse.dropWhile Char.isWhitespace).reverse)

/-- Is `needle` a contiguous substring of `hay`? -/
def listContains (hay needle : List Char) : Bool :=
  (List.range (hay.length + 1)).any (fun i => needle.isPrefixOf (hay.drop i))

/-- `s.toLowerCase().includes(k.toLowerCase())`. -/
def jsIncludesCI (s k : String) : Bool :=
  listContains (s.data.map Char.toLower) (k.data.map Char.toLower)

/-- `s.substring(0, n)`. -/
def jsSubstring (s : String) (n : Nat) : String := String.mk (s.data.take n)

/-- `s.replace(pat, repl)` with a string pattern: replace the first
occurrence of `pat` (the occurrences of `repl` in this file contain no
`$`, so no substitution-pattern handling is needed). -/
def jsReplaceFirst (s pat repl : String) : String :=
  match (List.range (s.data.length + 1)).find?
      (fun i => pat.data.isPrefixOf (s.data.drop i)) with
  | some i => String.mk (s.data.take i ++ repl.data ++ s.data.drop (i + pat.data.length))
  | none => s

/-- Inner contents of every `/"([^"]+)"/g` match, in order: the spans of
one or more non-quote characters enclosed in double quotes. -/
def dialogueSpansF : Nat → List Char → List (List Char)
  | 0, _ => []
  | _, [] => []
  | f + 1, c :: rest =>
    if c = '"' then
      match List.dropWhile (fun x => !(x = '"')) rest with
      | [] => []
      | _ :: tail =>
        let inner := List.takeWhile (fun x => !(x = '"')) rest
        if inner.isEmpty then dialogueSpansF f rest
        else inner :: dialogueSpansF f tail
    else dialogueSpansF f rest

/-- All quoted spans of a text, quotes stripped. -/
def dialogueSpans (s : String) : List String :=
  (dialogueSpansF (s.data.length + 1) s.data).map (fun l => String.mk l)

/-! ## Data model -/

/-- Violation kinds (the `type` field). -/
inductive VType where
  | scene_ending : VType
  | show_dont_tell : VType
  | dialogue : VType
deriving DecidableEq, Repr

/-- The string the code interpolates for `${v.type}`. -/
def VType.name : VType → String
  | .scene_ending => "scene_ending"
  | .show_dont_tell => "show_dont_tell"
  | .dialogue => "dialogue"

/-- Violation severities. -/
inductive Severity where
  | low : Severity
  | medium : Severity
  | high : Severity
deriving DecidableEq, Repr

/-- One detected violation (`pattern` is only set by the forbidden-pattern
branch of `checkSceneEnding`). -/
structure Violation where
  vtype : VType
  severity : Severity
  pattern : Option String
  text : String
  message : String
deriving DecidableEq, Repr

/-- The result record of `analyzeMessage`. -/
structure AnalysisResult where
  violations : List Violation
  lastSentences : List String
  wordCount : Nat
deriving DecidableEq, Repr

/-- `settings.validationRules` (the `pacing` and `emotionLabels` entries
exist in `defaultSettings` but are never read by the analyzer). -/
structure ValidationRules where
  sceneEndings : Bool
  showDontTell : Bool
  dialogueNaturalness : Bool
  pacing : Bool
  emotionLabels : Bool
deriving DecidableEq, Repr

/-- The part of `settings` the analyzer reads. -/
structure GuardConfig where
  strictMode : Bool
  validationRules : ValidationRules
deriving DecidableEq, Repr

/-- The `defaultSettings` values for the analyzer-relevant fields. -/
def defaultCfg : GuardConfig :=
  { strictMode := false,
    validationRules :=
      { sceneEndings := true, showDontTell := true, dialogueNaturalness := true,
        pacing := true, emotionLabels := true } }

/-! ## Analyzer (lines 222-336) -/

/-- The forbidden-pattern loop of `checkSceneEnding`: run `pattern.test`
on every forbidden pattern (mutating each pattern regex state entry) and
push one high-severity violation per hit. -/
def runForbidden (endingText : String) :
    List (RE × String) → List Nat → List Violation × List Nat
  | [], _ => ([], [])
  | _ :: _, [] => ([], [])
  | (r, src) :: ps, li :: ls =>
    let t := testG r endingText li
    let rest := runForbidden endingText ps ls
    ((if t.1 then
        [⟨.scene_ending, .high, some src, endingText,
          "Scene ending contains forbidden reflective/philosophical pattern"⟩]
      else []) ++ rest.1,
     t.2 :: rest.2)

/-- The good-ending heuristic: some keyword of some category occurs in the
ending text (case-insensitive substring test). -/
def hasGoodEnding (endingText : String) : Bool :=
  GOOD_ENDING_TYPES.any (fun keywords =>
    keywords.any (fun keyword => jsIncludesCI endingText keyword))

/-- `checkSceneEnding` (lines 255-287). -/
def checkSceneEnding (lastSentences : List String) (strict : Bool) (st : List Nat) :
    List Violation × List Nat :=
  let endingText := String.intercalate " " lastSentences
  let run := runForbidden endingText FORBIDDEN_PATTERNS st
  let strictViolations :=
    if !hasGoodEnding endingText && strict then
      [⟨.scene_ending, .medium, none, endingText,
        "Scene ending lacks concrete action/dialogue/sensory detail"⟩]
    else []
  (run.1 ++ strictViolations, run.2)

/-- The matched substrings of all `EMOTION_LABELS` matches of the full
text, per pattern, in discovery order. -/
def emotionMatchTexts (text : String) : List String :=
  (EMOTION_LABELS.map (fun r =>
    (jsMatchAll r text).map (fun m => sliceStr text.data m.1 m.2))).flatten

/-- `checkEmotionLabels` (lines 292-308). -/
def checkEmotionLabels (text : String) : List Violation :=
  (emotionMatchTexts text).map (fun m =>
    ⟨.show_dont_tell, .medium, none, m,
      "Using emotion labels instead of showing through actions/sensations"⟩)

/-- `checkDialogue` (lines 313-336): flag each quoted span containing a
formal construction, unless the whole text carries an exemption cue. -/
def checkDialogue (text : String) : List Violation :=
  (dialogueSpans text).filterMap (fun speech =>
    if reTest formalRE speech then
      if !reTest exemptRE text then
        some ⟨.dialogue, .low, none, speech,
          "Dialogue may be too formal - consider using contractions"⟩
      else none
    else none)

/-- `analyzeMessage` (lines 222-250).  The source also computes
`const lines = text.trim().split('\n')` but never uses it.  The regex
state only changes through `checkSceneEnding`. -/
def analyzeMessage (text : String) (cfg : GuardConfig) (st : List Nat) :
    AnalysisResult × List Nat :=
  let lastSentences := getLastSentences text 3
  let ending :=
    if cfg.validationRules.sceneEndings then
      checkSceneEnding lastSentences cfg.strictMode st
    else ([], st)
  let emotionViolations :=
    if cfg.validationRules.showDontTell then checkEmotionLabels text else []
  let dialogueViolations :=
    if cfg.validationRules.dialogueNaturalness then checkDialogue text else []
  ({ violations := ending.1 ++ emotionViolations ++ dialogueViolations,
     lastSentences := lastSentences,
     wordCount := (jsSplitWs text).length },
   ending.2)

/-! ## Corrector (lines 338-425) -/

/-- `FORBIDDEN_PATTERNS.some(pattern => pattern.test(s))`: `Array.some`
stops at the first hit, so later patterns keep their `lastIndex`. -/
def someTestG (s : String) :
    List (RE × String) → List Nat → Bool × List Nat
  | [], _ => (false, [])
  | _ :: _, [] => (false, [])
  | (r, _) :: ps, li :: ls =>
    let t := testG r s li
    if t.1 then (true, t.2 :: ls)
    else
      let rest := someTestG s ps ls
      (rest.1, t.2 :: rest.2)

/-- The marker `fallbackCorrection` wraps around an emotion-label match. -/
def markerWrap (t : String) : String := "[SHOW-DON\x27T-TELL: " ++ t ++ "]"

/-- The scene-ending part of `fallbackCorrection` (lines 394-411):
re-segment into sentences; when more than two exist and the last tests as
forbidden, drop it, then drop the new last one as well when it also tests
as forbidden; rejoin with a single space. -/
def sceneFallbackStep (text : String) (analysis : AnalysisResult) (st : List Nat) :
    String × List Nat :=
  let endingViolations :=
    analysis.violations.filter (fun v => decide (v.vtype = .scene_ending))
  if endingViolations.length > 0 then
    let sentences := jsSentences text
    if sentences.length > 2 then
      let lastSentence := sentences.getD (sentences.length - 1) ""
      let t1 := someTestG lastSentence FORBIDDEN_PATTERNS st
      if t1.1 then
        let sentences2 := sentences.dropLast
        let secondLast := sentences2.getD (sentences2.length - 1) ""
        let t2 := someTestG secondLast FORBIDDEN_PATTERNS t1.2
        let sentences3 := if t2.1 then sentences2.dropLast else sentences2
        (String.intercalate " " sentences3, t2.2)
      else (text, t1.2)
    else (text, st)
  else (text, st)

/-- `fallbackCorrection` (lines 390-425): the scene-ending step, then each
`show_dont_tell` violation's text is replaced (first occurrence) by the
marker-wrapped original. -/
def fallbackCorrection (text : String) (analysis : AnalysisResult) (st : List Nat) :
    String × List Nat :=
  let scene := sceneFallbackStep text analysis st
  let emotionViolations :=
    analysis.violations.filter (fun v => decide (v.vtype = .show_dont_tell))
  (emotionViolations.foldl
    (fun corrected v => jsReplaceFirst corrected v.text (markerWrap v.text)) scene.1,
   scene.2)

/-- `correctMessage` (lines 341-385).  The `generateQuietPrompt` call is
the `collab` input: `Except.error` is a raised error (the `catch` branch,
which falls back), `Except.ok c` a returned string.  A non-empty response
that differs from the input is returned trimmed; otherwise the original
text is kept. -/
def correctMessage (text : String) (analysis : AnalysisResult)
    (collab : Except Unit String) (st : List Nat) : String × List Nat :=
  match collab with
  | .ok corrected =>
    if corrected ≠ "" ∧ jsTrim corrected ≠ "" ∧ corrected ≠ text then
      (jsTrim corrected, st)
    else (text, st)
  | .error _ => fallbackCorrection text analysis st

/-! ## Reporter (lines 438-485) -/

/-- The toastr class chosen for the warning. -/
inductive NotifLevel where
  | error : NotifLevel
  | warning : NotifLevel
  | info : NotifLevel
deriving DecidableEq, Repr

/-- `showWarnings` (lines 438-485): nothing on an empty list; otherwise
the grouped message and the notification level of the highest present
severity. -/
def showWarnings (violations : List Violation) : Option (String × NotifLevel) :=
  if violations.length = 0 then none
  else
    let highSeverity := violations.filter (fun v => decide (v.severity = .high))
    let mediumSeverity := violations.filter (fun v => decide (v.severity = .medium))
    let lowSeverity := violations.filter (fun v => decide (v.severity = .low))
    let message := "Found " ++ toString violations.length ++ " guideline violation(s):\n\n"
    let message :=
      if highSeverity.length > 0 then
        (highSeverity.foldl
          (fun m v =>
            m ++ "  • " ++ v.vtype.name ++ ": " ++ v.message ++ "\n" ++
            (if v.text ≠ "" then "    \"" ++ jsSubstring v.text 60 ++ "...\"\n" else ""))
          (message ++ "🔴 High Priority (" ++ toString highSeverity.length ++ "):\n")) ++ "\n"
      else message
    let message :=
      if mediumSeverity.length > 0 then
        (mediumSeverity.foldl
          (fun m v => m ++ "  • " ++ v.vtype.name ++ ": " ++ v.message ++ "\n")
          (message ++ "🟡 Medium Priority (" ++ toString mediumSeverity.length ++ "):\n")) ++ "\n"
      else message
    let message :=
      if lowSeverity.length > 0 then
        lowSeverity.foldl
          (fun m v => m ++ "  • " ++ v.vtype.name ++ ": " ++ v.message ++ "\n")
          (message ++ "🟢 Low Priority (" ++ toString lowSeverity.length ++ "):\n")
      else message
    some (message,
      if highSeverity.length > 0 then .error
      else if mediumSeverity.length > 0 then .warning
      else .info)

/-! ## Derived definitions used in statements -/

/-- `r` matches at position `pos` of `cs` under no fuel at all: the
matcher rejects for every fuel value and continuation. -/
def NeverMatchesAt (r : RE) (cs : List Char) (pos : Nat) : Prop :=
  ∀ f k, reRun f r cs pos k = none

/-- The strict-mode violation emitted for an empty ending window. -/
def strictEmptyViolation : Violation :=
  ⟨.scene_ending, .medium, none, "",
    "Scene ending lacks concrete action/dialogue/sensory detail"⟩

/-- The default settings with strict mode switched on. -/
def strictCfg : GuardConfig := { defaultCfg with strictMode := true }

/-! ## Helper lemmas: matcher failure -/

theorem reRun_succ_liti (f : Nat) (c : Char) (cs : List Char) (pos : Nat)
    (k : Nat → Option Nat) :
    reRun (f + 1) (.liti c) cs pos k =
      (match cs.get? pos with
       | some d => if eqI d c then k (pos + 1) else none
       | none => none) := rfl

theorem reRun_succ_alt (f : Nat) (a b : RE) (cs : List Char) (pos : Nat)
    (k : Nat → Option Nat) :
    reRun (f + 1) (.alt a b) cs pos k =
      (reRun f a cs pos k).orElse (fun _ => reRun f b cs pos k) := rfl

theorem reRun_succ_cat (f : Nat) (a b : RE) (cs : List Char) (pos : Nat)
    (k : Nat → Option Nat) :
    reRun (f + 1) (.cat a b) cs pos k =
      reRun f a cs pos (fun p2 => reRun f b cs p2 k) := rfl

theorem liti_never {cs : List Char} {pos : Nat} {c : Char}
    (h : ∀ d, cs.get? pos = some d → eqI d c = false) :
    NeverMatchesAt (.liti c) cs pos := by
  intro f k
  cases f with
  | zero => rfl
  | succ f =>
    rw [reRun_succ_liti]
    cases hg : cs.get? pos with
    | none => rfl
    | some d => simp [h d hg]

theorem cat_never {cs : List Char} {pos : Nat} {a : RE} (b : RE)
    (h : NeverMatchesAt a cs pos) : NeverMatchesAt (.cat a b) cs pos := by
  intro f k
  cases f with
  | zero => rfl
  | succ f => rw [reRun_succ_cat]; exact h f _

theorem alt_never {cs : List Char} {pos : Nat} {a b : RE}
    (ha : NeverMatchesAt a cs pos) (hb : NeverMatchesAt b cs pos) :
    NeverMatchesAt (.alt a b) cs pos := by
  intro f k
  cases f with
  | zero => rfl
  | succ f => rw [reRun_succ_alt, ha f k, hb f k]; rfl

theorem litiSeq_cons_never {cs : List Char} {pos : Nat} {c : Char}
    (l : List Char) (r : RE)
    (h : ∀ d, cs.get? pos = some d → eqI d c = false) :
    NeverMatchesAt (litiSeq (c :: l) r) cs pos :=
  cat_never _ (liti_never h)

theorem grpAlt_never {cs : List Char} {pos : Nat} (ws : List String)
    (hne : ws ≠ [])
    (h : ∀ w ∈ ws, ∃ c l, w.data = c :: l ∧
      ∀ d, cs.get? pos = some d → eqI d c = false) :
    NeverMatchesAt (grpAlt ws) cs pos := by
  induction ws with
  | nil => exact absurd rfl hne
  | cons w ws ih =>
    cases ws with
    | nil =>
      obtain ⟨c, l, hw, hc⟩ := h w (by simp)
      show NeverMatchesAt (litiS w RE.eps) cs pos
      unfold litiS
      rw [hw]
      exact litiSeq_cons_never l RE.eps hc
    | cons w' ws' =>
      obtain ⟨c, l, hw, hc⟩ := h w (by simp)
      apply alt_never
      · show NeverMatchesAt (litiS w RE.eps) cs pos
        unfold litiS
        rw [hw]
        exact litiSeq_cons_never l RE.eps hc
      · exact ih (by simp) (fun x hx => h x (by simp [hx]))

theorem matchAt_of_never {r : RE} {cs : List Char} {pos : Nat}
    (h : NeverMatchesAt r cs pos) : matchAt r cs pos = none := h _ _

theorem firstMatchFrom_none {r : RE} {cs : List Char}
    (h : ∀ p, matchAt r cs p = none) (start : Nat) :
    firstMatchFrom r cs start = none := by
  unfold firstMatchFrom
  apply List.findSome?_eq_none_iff.mpr
  intro p _
  simp [h p]

theorem allMatches_nil {r : RE} {cs : List Char}
    (h : ∀ s, firstMatchFrom r cs s = none) (f start : Nat) :
    allMatches f r cs start = [] := by
  cases f with
  | zero => rfl
  | succ f => unfold allMatches; rw [h start]

/-! ## Helper lemmas: whitespace-only and terminator-free texts -/

theorem ws_not_term {c : Char} (h : c.isWhitespace = true) : isTermChar c = false := by
  simp only [Char.isWhitespace] at h
  simp only [Bool.or_eq_true, decide_eq_true_eq] at h
  rcases h with ((h | h) | h) | h <;> subst h <;> decide

theorem ws_get_eqI_false {cs : List Char} {pos : Nat}
    (hws : ∀ x ∈ cs, x.isWhitespace = true) (c : Char)
    (hc : (eqI ' ' c || eqI '\t' c || eqI '\r' c || eqI '\n' c) = false) :
    ∀ d, cs.get? pos = some d → eqI d c = false := by
  intro d hd
  have hw := hws d (List.get?_mem hd)
  simp only [Char.isWhitespace, Bool.or_eq_true, decide_eq_true_eq] at hw
  simp only [Bool.or_eq_false_iff] at hc
  rcases hw with ((h | h) | h) | h <;> subst h
  · exact hc.1.1.1
  · exact hc.1.1.2
  · exact hc.1.2
  · exact hc.2

theorem emotion_never_ws {cs : List Char}
    (hws : ∀ x ∈ cs, x.isWhitespace = true) :
    ∀ r ∈ EMOTION_LABELS, ∀ pos, NeverMatchesAt r cs pos := by
  intro r hr pos
  simp only [EMOTION_LABELS, List.mem_cons, List.not_mem_nil, or_false] at hr
  rcases hr with rfl | rfl | rfl
  · show NeverMatchesAt (litiS "I felt " _) cs pos
    unfold litiS
    rw [show "I felt ".data = 'I' :: " felt ".data from rfl]
    exact litiSeq_cons_never _ _ (ws_get_eqI_false hws 'I' (by decide))
  · apply cat_never
    apply grpAlt_never _ (by simp)
    intro w hw
    simp only [List.mem_cons, List.not_mem_nil, or_false] at hw
    rcases hw with rfl | rfl | rfl
    · exact ⟨'h', "e".data, rfl, ws_get_eqI_false hws 'h' (by decide)⟩
    · exact ⟨'s', "he".data, rfl, ws_get_eqI_false hws 's' (by decide)⟩
    · exact ⟨'t', "hey".data, rfl, ws_get_eqI_false hws 't' (by decide)⟩
  · show NeverMatchesAt (litiS "I was " _) cs pos
    unfold litiS
    rw [show "I was ".data = 'I' :: " was ".data from rfl]
    exact litiSeq_cons_never _ _ (ws_get_eqI_false hws 'I' (by decide))

theorem emotionMatchTexts_ws {s : String}
    (hws : ∀ x ∈ s.data, x.isWhitespace = true) :
    emotionMatchTexts s = [] := by
  unfold emotionMatchTexts
  rw [List.flatten_eq_nil_iff]
  intro x hx
  rw [List.mem_map] at hx
  obtain ⟨r, hr, rfl⟩ := hx
  have hnone : ∀ p, matchAt r s.data p = none :=
    fun p => matchAt_of_never (emotion_never_ws hws r hr p)
  unfold jsMatchAll
  rw [allMatches_nil (firstMatchFrom_none hnone) _ 0]
  rfl

theorem checkEmotionLabels_ws {s : String}
    (hws : ∀ x ∈ s.data, x.isWhitespace = true) :
    checkEmotionLabels s = [] := by
  unfold checkEmotionLabels
  rw [emotionMatchTexts_ws hws]
  rfl

theorem dialogueSpansF_noquote :
    ∀ (f : Nat) (cs : List Char), '"' ∉ cs → dialogueSpansF f cs = [] := by
  intro f
  induction f with
  | zero => intro cs _; cases cs <;> rfl
  | succ f ih =>
    intro cs hq
    cases cs with
    | nil => rfl
    | cons c rest =>
      have hc : ¬(c = '"') := fun h => hq (h ▸ List.mem_cons_self c rest)
      have hrest : '"' ∉ rest := fun h => hq (List.mem_cons_of_mem c h)
      show (if c = '"' then _ else dialogueSpansF f rest) = []
      rw [if_neg hc]
      exact ih rest hrest

theorem checkDialogue_noquote {s : String} (hq : '"' ∉ s.data) :
    checkDialogue s = [] := by
  unfold checkDialogue dialogueSpans
  rw [dialogueSpansF_noquote _ _ hq]
  rfl

theorem splitSentencesF_noterm {cs : List Char}
    (hnt : ∀ c ∈ cs, isTermChar c = false) (f : Nat) :
    splitSentencesF f cs = [] := by
  cases f with
  | zero => cases cs <;> rfl
  | succ f =>
    cases cs with
    | nil => rfl
    | cons c rest =>
      have hc := hnt c (List.mem_cons_self c rest)
      have hdrop : List.dropWhile (fun x => !isTermChar x) (c :: rest) = [] :=
        List.dropWhile_eq_nil_iff.mpr (fun x hx => by simp [hnt x hx])
      show (if isTermChar c then _ else _) = []
      rw [if_neg (by simp [hc])]
      simp only [hdrop]

theorem jsSentences_noterm {s : String}
    (hnt : ∀ c ∈ s.data, isTermChar c = false) : jsSentences s = [] := by
  unfold jsSentences
  rw [splitSentencesF_noterm hnt]
  rfl

theorem getLastSentences_noterm {s : String}
    (hnt : ∀ c ∈ s.data, isTermChar c = false) (n : Nat) :
    getLastSentences s n = [] := by
  simp [getLastSentences, jsSentences_noterm hnt]

/-! ## Helper lemmas: the empty ending window -/

theorem testG_empty {r : RE} (h : matchAt r [] 0 = none) (li : Nat) :
    testG r "" li = (false, 0) := by
  unfold testG firstMatchFrom
  cases li with
  | zero => simp [List.range', List.findSome?, h, show ("" : String).data = [] from rfl]
  | succ n =>
    rw [show ("" : String).data = [] from rfl]
    rw [show ([] : List Char).length + 1 - (n + 1) = 0 from by simp]
    simp [List.range']

theorem runForbidden_empty :
    ∀ (ps : List (RE × String)) (st : List Nat),
      (∀ p ∈ ps, matchAt p.1 [] 0 = none) → (runForbidden "" ps st).1 = [] := by
  intro ps
  induction ps with
  | nil => intro st _; rfl
  | cons p ps ih =>
    intro st h
    cases st with
    | nil => rfl
    | cons li ls =>
      obtain ⟨r, src⟩ := p
      have h1 : testG r "" li = (false, 0) :=
        testG_empty (h (r, src) (List.mem_cons_self _ _)) li
      have hih := ih ls (fun q hq => h q (List.mem_cons_of_mem _ hq))
      simp [runForbidden, h1, hih]

theorem checkSceneEnding_nil (strict : Bool) (st : List Nat) :
    (checkSceneEnding [] strict st).1 =
      if strict then [strictEmptyViolation] else [] := by
  have hrun : (runForbidden "" FORBIDDEN_PATTERNS st).1 = [] :=
    runForbidden_empty FORBIDDEN_PATTERNS st (by decide)
  simp only [checkSceneEnding,
    show String.intercalate " " ([] : List String) = "" from rfl,
    show hasGoodEnding "" = false from by decide, hrun]
  cases strict <;> simp [strictEmptyViolation]

/-! ## Helper lemmas: violation fields per check -/

theorem runForbidden_vtype (s : String) :
    ∀ (ps : List (RE × String)) (st : List Nat) (v : Violation),
      v ∈ (runForbidden s ps st).1 → v.vtype = .scene_ending := by
  intro ps
  induction ps with
  | nil => intro st v hv; exact absurd hv (by simp [runForbidden])
  | cons p ps ih =>
    intro st v hv
    cases st with
    | nil => exact absurd hv (by cases p; simp [runForbidden])
    | cons li ls =>
      obtain ⟨r, src⟩ := p
      rw [show (runForbidden s ((r, src) :: ps) (li :: ls)).1 =
        (if (testG r s li).1 then
          [⟨.scene_ending, .high, some src, s,
            "Scene ending contains forbidden reflective/philosophical pattern"⟩]
         else []) ++ (runForbidden s ps ls).1 from rfl] at hv
      rcases List.mem_append.mp hv with h | h
      · split at h
        · simp only [List.mem_singleton] at h
          subst h; rfl
        · exact absurd h (by simp)
      · exact ih ls v h

theorem runForbidden_severity (s : String) :
    ∀ (ps : List (RE × String)) (st : List Nat) (v : Violation),
      v ∈ (runForbidden s ps st).1 → v.severity = .high := by
  intro ps
  induction ps with
  | nil => intro st v hv; exact absurd hv (by simp [runForbidden])
  | cons p ps ih =>
    intro st v hv
    cases st with
    | nil => exact absurd hv (by cases p; simp [runForbidden])
    | cons li ls =>
      obtain ⟨r, src⟩ := p
      rw [show (runForbidden s ((r, src) :: ps) (li :: ls)).1 =
        (if (testG r s li).1 then
          [⟨.scene_ending, .high, some src, s,
            "Scene ending contains forbidden reflective/philosophical pattern"⟩]
         else []) ++ (runForbidden s ps ls).1 from rfl] at hv
      rcases List.mem_append.mp hv with h | h
      · split at h
        · simp only [List.mem_singleton] at h
          subst h; rfl
        · exact absurd h (by simp)
      · exact ih ls v h

theorem checkSceneEnding_vtype {ls : List String} {strict : Bool} {st : List Nat}
    {v : Violation} (hv : v ∈ (checkSceneEnding ls strict st).1) :
    v.vtype = .scene_ending := by
  simp only [checkSceneEnding] at hv
  rcases List.mem_append.mp hv with h | h
  · exact runForbidden_vtype _ _ _ _ h
  · split at h
    · simp only [List.mem_singleton] at h; subst h; rfl
    · exact absurd h (by simp)

theorem checkSceneEnding_severity {ls : List String} {strict : Bool} {st : List Nat}
    {v : Violation} (hv : v ∈ (checkSceneEnding ls strict st).1) :
    v.severity = .high ∨ v.severity = .medium := by
  simp only [checkSceneEnding] at hv
  rcases List.mem_append.mp hv with h | h
  · left
    exact runForbidden_severity _ _ _ _ h
  · right
    split at h
    · simp only [List.mem_singleton] at h; subst h; rfl
    · exact absurd h (by simp)

theorem checkEmotionLabels_fields {s : String} {v : Violation}
    (hv : v ∈ checkEmotionLabels s) :
    v.vtype = .show_dont_tell ∧ v.severity = .medium := by
  unfold checkEmotionLabels at hv
  rw [List.mem_map] at hv
  obtain ⟨m, _, rfl⟩ := hv
  exact ⟨rfl, rfl⟩

theorem checkDialogue_fields {s : String} {v : Violation}
    (hv : v ∈ checkDialogue s) :
    v.vtype = .dialogue ∧ v.severity = .low := by
  unfold checkDialogue at hv
  rw [List.mem_filterMap] at hv
  obtain ⟨speech, _, heq⟩ := hv
  split at heq
  · split at heq
    · simp only [Option.some.injEq] at heq
      subst heq; exact ⟨rfl, rfl⟩
    · exact absurd heq (by simp)
  · exact absurd heq (by simp)

/-! ## Helper lemmas: severity partition and whitespace splitting -/

theorem severity_partition (vs : List Violation) :
    (vs.filter (fun v => decide (v.severity = .high))).length
      + (vs.filter (fun v => decide (v.severity = .medium))).length
      + (vs.filter (fun v => decide (v.severity = .low))).length = vs.length := by
  induction vs with
  | nil => rfl
  | cons v vs ih =>
    rcases hv : v.severity with _ | _ | _ <;>
      simp only [List.filter_cons, hv] <;> simp <;> omega

theorem jsSplitWs_allws_len {s : String} (hne : s.data ≠ [])
    (hws : ∀ x ∈ s.data, x.isWhitespace = true) :
    (jsSplitWs s).length = 2 := by
  unfold jsSplitWs
  cases hd : s.data with
  | nil => exact absurd hd hne
  | cons c rest =>
    have hc : c.isWhitespace = true := hws c (hd ▸ List.mem_cons_self c rest)
    have hdrop : rest.dropWhile Char.isWhitespace = [] :=
      List.dropWhile_eq_nil_iff.mpr
        (fun x hx => hws x (hd ▸ List.mem_cons_of_mem c hx))
    show ((wsSplitF ((c :: rest).length + 1) (c :: rest) []).map _).length = 2
    rw [show (c :: rest).length + 1 = rest.length + 1 + 1 from by simp]
    rw [show wsSplitF (rest.length + 1 + 1) (c :: rest) [] =
      if c.isWhitespace then
        ([] : List Char).reverse ::
          wsSplitF (rest.length + 1) (rest.dropWhile Char.isWhitespace) []
      else wsSplitF (rest.length + 1) rest [c] from rfl]
    rw [if_pos hc, hdrop]
    rfl

/-! ## Claim C1 -/

/-- C1, corrected.  The claim said an empty or unchanged collaborator
response is treated exactly like a collaborator failure (triggering the
fallback edits).  In the code only a *raised* error reaches
`fallbackCorrection`; an empty, whitespace-only or unchanged response
makes `correctMessage` keep the original text with no fallback applied. -/
theorem C1_collaborator_response_handling (text : String)
    (analysis : AnalysisResult) (st : List Nat) (c : String) :
    (jsTrim c = "" ∨ c = text →
      correctMessage text analysis (.ok c) st = (text, st))
    ∧ correctMessage text analysis (.error ()) st =
        fallbackCorrection text analysis st := by
  constructor
  · intro h
    show (if c ≠ "" ∧ jsTrim c ≠ "" ∧ c ≠ text then (jsTrim c, st) else (text, st)) = (text, st)
    rcases h with h | h
    · rw [if_neg (fun hc => hc.2.1 h)]
    · rw [if_neg (fun hc => hc.2.2 h)]
  · rfl

/-- Witness for C1: a concrete empty response keeps the original, a
concrete raised error falls back. -/
theorem C1_collaborator_response_handling_witness :
    correctMessage "I felt angry."
        (analyzeMessage "I felt angry." defaultCfg initState).1
        (.ok "") initState
      = ("I felt angry.", initState)
    ∧ correctMessage "I felt angry."
        (analyzeMessage "I felt angry." defaultCfg initState).1
        (.error ()) initState
      = fallbackCorrection "I felt angry."
          (analyzeMessage "I felt angry." defaultCfg initState).1 initState :=
  ⟨(C1_collaborator_response_handling "I felt angry."
      (analyzeMessage "I felt angry." defaultCfg initState).1 initState "").1
      (Or.inl (by decide)),
   (C1_collaborator_response_handling "I felt angry."
      (analyzeMessage "I felt angry." defaultCfg initState).1 initState "").2⟩

/-- Counterexample to C1 as stated: the text has a violation, the
fallback edit would change it, yet an empty collaborator response returns
the original text, not the fallback result. -/
theorem C1_empty_response_keeps_original :
    (analyzeMessage "I felt angry." defaultCfg initState).1.violations ≠ []
    ∧ correctMessage "I felt angry."
        (analyzeMessage "I felt angry." defaultCfg initState).1
        (Except.ok "") initState
      = ("I felt angry.", initState)
    ∧ (fallbackCorrection "I felt angry."
        (analyzeMessage "I felt angry." defaultCfg initState).1 initState).1
      = "[SHOW-DON\x27T-TELL: I felt angry]."
    ∧ "[SHOW-DON\x27T-TELL: I felt angry]." ≠ "I felt angry." := by decide

/-! ## Claim C3 -/

/-- C3, a code bug: `analyzeMessage` is not deterministic.  The `gi`-flag
regexes of `FORBIDDEN_PATTERNS` keep their `lastIndex` across
`pattern.test` calls, so on the same text and configuration the first
invocation reports the forbidden-ending violation and the immediately
following invocation reports none. -/
theorem C3_analyze_not_deterministic :
    (analyzeMessage "Hi. Bye. One day at a time." defaultCfg initState).1.violations.length = 1
    ∧ (analyzeMessage "Hi. Bye. One day at a time." defaultCfg
        (analyzeMessage "Hi. Bye. One day at a time." defaultCfg initState).2).1.violations = []
    ∧ (analyzeMessage "Hi. Bye. One day at a time." defaultCfg initState).1
      ≠ (analyzeMessage "Hi. Bye. One day at a time." defaultCfg
          (analyzeMessage "Hi. Bye. One day at a time." defaultCfg initState).2).1 := by
  decide

/-! ## Claim C4 -/

/-- C4, a code bug: when the same emotion-label text matches twice, the
fallback marking replaces the *first* occurrence of the text each time,
so the second replacement lands inside the marker inserted by the first
(nesting two markers) and the second real occurrence stays unmarked. -/
theorem C4_fallback_double_marking :
    (analyzeMessage "I felt angry and I felt angry." defaultCfg initState).1.violations.length = 2
    ∧ (fallbackCorrection "I felt angry and I felt angry."
        (analyzeMessage "I felt angry and I felt angry." defaultCfg initState).1 initState).1
      = "[SHOW-DON\x27T-TELL: [SHOW-DON\x27T-TELL: I felt angry]] and I felt angry." := by
  decide

/-! ## Claim C6 -/

/-- C6, confirmed: when `analyzeMessage` yields no violations, the
fallback correction returns the input text unchanged (for any
configuration and any regex states). -/
theorem C6_fallback_identity_without_violations (text : String)
    (cfg : GuardConfig) (st st2 : List Nat)
    (h : (analyzeMessage text cfg st).1.violations = []) :
    (fallbackCorrection text (analyzeMessage text cfg st).1 st2).1 = text := by
  generalize hA : (analyzeMessage text cfg st).1 = A at h ⊢
  simp [fallbackCorrection, sceneFallbackStep, h]

/-- Witness for C6 at a violation-free text. -/
theorem C6_fallback_identity_witness :
    (fallbackCorrection "Hi." (analyzeMessage "Hi." defaultCfg initState).1 initState).1 = "Hi." :=
  C6_fallback_identity_without_violations "Hi." defaultCfg initState initState (by decide)

/-! ## Claim C2 -/

/-- C2, corrected.  The claim said empty or whitespace-only input yields
zero violations under any configuration and `wordCount` equal to the
token count of the trimmed text (zero).  In the code the analysis never
fails and yields zero violations *except* that with both `sceneEndings`
and `strictMode` enabled one medium `scene_ending` violation is emitted
for the empty ending window; and `wordCount` is
`text.split(/\s+/).length`, which is `1` for the empty string and `2`
for non-empty whitespace-only text, never `0`. -/
theorem C2_whitespace_input_analysis (text : String) (cfg : GuardConfig)
    (st : List Nat) (hws : ∀ c ∈ text.data, c.isWhitespace = true) :
    (analyzeMessage text cfg st).1.violations =
      (if cfg.validationRules.sceneEndings ∧ cfg.strictMode
       then [strictEmptyViolation] else [])
    ∧ (analyzeMessage text cfg st).1.lastSentences = []
    ∧ (analyzeMessage text cfg st).1.wordCount = (if text = "" then 1 else 2) := by
  have hnt : ∀ c ∈ text.data, isTermChar c = false :=
    fun c hc => ws_not_term (hws c hc)
  have hlast : getLastSentences text 3 = [] := getLastSentences_noterm hnt 3
  have hemo : checkEmotionLabels text = [] := checkEmotionLabels_ws hws
  have hq : '"' ∉ text.data := fun h => absurd (hws _ h) (by decide)
  have hdia : checkDialogue text = [] := checkDialogue_noquote hq
  refine ⟨?_, ?_, ?_⟩
  · cases hsc : cfg.validationRules.sceneEndings with
    | false => simp [analyzeMessage, hlast, hsc, hemo, hdia]
    | true =>
      cases hstrict : cfg.strictMode with
      | false =>
        simp [analyzeMessage, hlast, hsc, hstrict, hemo, hdia,
          checkSceneEnding_nil false st]
      | true =>
        simp [analyzeMessage, hlast, hsc, hstrict, hemo, hdia,
          checkSceneEnding_nil true st]
  · simp [analyzeMessage, hlast]
  · by_cases h0 : text = ""
    · subst h0; simp [analyzeMessage]; decide
    · have hne : text.data ≠ [] := fun hd =>
        h0 (String.ext (hd.trans (show ([] : List Char) = ("" : String).data from rfl)))
      simp [analyzeMessage, h0, jsSplitWs_allws_len hne hws]

/-- Witness for C2: `" "` under strict settings. -/
theorem C2_whitespace_input_analysis_witness :
    (analyzeMessage " " strictCfg initState).1.violations = [strictEmptyViolation]
    ∧ (analyzeMessage " " strictCfg initState).1.lastSentences = []
    ∧ (analyzeMessage " " strictCfg initState).1.wordCount = 2 := by
  have h := C2_whitespace_input_analysis " " strictCfg initState (by decide)
  exact ⟨h.1.trans (by decide), h.2.1, h.2.2.trans (by decide)⟩

/-- Counterexample to C2 as stated: on the whitespace-only input `" "`
under strict settings the analysis reports one violation (not zero) and
`wordCount = 2` (not `0`). -/
theorem C2_strict_whitespace_counterexample :
    (analyzeMessage " " strictCfg initState).1.violations = [strictEmptyViolation]
    ∧ (analyzeMessage " " strictCfg initState).1.wordCount = 2
    ∧ (analyzeMessage "" defaultCfg initState).1.wordCount = 1
    ∧ ¬((analyzeMessage " " strictCfg initState).1.violations = []
        ∧ (analyzeMessage " " strictCfg initState).1.wordCount = 0) := by
  decide

/-! ## Claim C9 -/

/-- C9, confirmed: on text without `.`, `!` or `?` the ending window is
empty, the scene-ending check yields no high-severity violation on any
content (no violation at all unless both `sceneEndings` and `strictMode`
are on, in which case exactly the one medium violation for the missing
good-ending keyword appears), and no violation of any check is
high-severity. -/
theorem C9_no_terminator_scene_check (text : String) (cfg : GuardConfig)
    (st : List Nat) (hnt : ∀ c ∈ text.data, isTermChar c = false) :
    (analyzeMessage text cfg st).1.lastSentences = []
    ∧ (analyzeMessage text cfg st).1.violations.filter
        (fun v => decide (v.vtype = .scene_ending))
      = (if cfg.validationRules.sceneEndings ∧ cfg.strictMode
         then [strictEmptyViolation] else [])
    ∧ ∀ v ∈ (analyzeMessage text cfg st).1.violations, v.severity ≠ .high := by
  have hlast : getLastSentences text 3 = [] := getLastSentences_noterm hnt 3
  have hemoNil : (checkEmotionLabels text).filter
      (fun v => decide (v.vtype = VType.scene_ending)) = [] :=
    List.filter_eq_nil_iff.mpr (fun v hv => by
      simp [(checkEmotionLabels_fields hv).1])
  have hdiaNil : (checkDialogue text).filter
      (fun v => decide (v.vtype = VType.scene_ending)) = [] :=
    List.filter_eq_nil_iff.mpr (fun v hv => by
      simp [(checkDialogue_fields hv).1])
  have hemoMem : ∀ a ∈ checkEmotionLabels text, ¬a.vtype = VType.scene_ending :=
    fun a ha => by simp [(checkEmotionLabels_fields ha).1]
  have hdiaMem : ∀ a ∈ checkDialogue text, ¬a.vtype = VType.scene_ending :=
    fun a ha => by simp [(checkDialogue_fields ha).1]
  refine ⟨by simp [analyzeMessage, hlast], ?_, ?_⟩
  · cases hsc : cfg.validationRules.sceneEndings with
    | false =>
      simp [analyzeMessage, hlast, hsc, List.filter_append, hemoNil, hdiaNil]
      exact ⟨fun a _ ha => hemoMem a ha, fun a _ ha => hdiaMem a ha⟩
    | true =>
      cases hstrict : cfg.strictMode with
      | false =>
        simp [analyzeMessage, hlast, hsc, hstrict, List.filter_append,
          hemoNil, hdiaNil, checkSceneEnding_nil false st]
        exact ⟨fun a _ ha => hemoMem a ha, fun a _ ha => hdiaMem a ha⟩
      | true =>
        simp [analyzeMessage, hlast, hsc, hstrict, List.filter_append,
          hemoNil, hdiaNil, checkSceneEnding_nil true st, strictEmptyViolation]
        exact ⟨fun a _ ha => hemoMem a ha, fun a _ ha => hdiaMem a ha⟩
  · intro v hv
    have hviol : (analyzeMessage text cfg st).1.violations =
        (if cfg.validationRules.sceneEndings
         then checkSceneEnding [] cfg.strictMode st else ([], st)).1
        ++ (if cfg.validationRules.showDontTell then checkEmotionLabels text else [])
        ++ (if cfg.validationRules.dialogueNaturalness then checkDialogue text else []) := by
      simp [analyzeMessage, hlast]
    rw [hviol] at hv
    rcases List.mem_append.mp hv with h | h
    rotate_left
    · split at h
      · rw [(checkDialogue_fields h).2]; decide
      · exact absurd h (by simp)
    rcases List.mem_append.mp h with h2 | h2
    · split at h2
      · rw [checkSceneEnding_nil cfg.strictMode st] at h2
        split at h2
        · simp only [List.mem_singleton] at h2
          subst h2; decide
        · exact absurd h2 (by simp)
      · exact absurd h2 (by simp)
    · split at h2
      · rw [(checkEmotionLabels_fields h2).2]; decide
      · exact absurd h2 (by simp)

/-- Witness for C9 at a terminator-free text under strict settings. -/
theorem C9_no_terminator_scene_check_witness :
    (analyzeMessage "Hello there" strictCfg initState).1.lastSentences = []
    ∧ (analyzeMessage "Hello there" strictCfg initState).1.violations.filter
        (fun v => decide (v.vtype = .scene_ending))
      = (if strictCfg.validationRules.sceneEndings ∧ strictCfg.strictMode
         then [strictEmptyViolation] else [])
    ∧ ∀ v ∈ (analyzeMessage "Hello there" strictCfg initState).1.violations,
        v.severity ≠ .high :=
  C9_no_terminator_scene_check "Hello there" strictCfg initState (by decide)

/-! ## Claim C5 -/

/-- C5, confirmed: the fallback scene-ending correction drops at most two
sentences (`k ≤ 2`), drops nothing when the text has two or fewer
sentences, drops the last sentence only when more than two sentences
exist and the last one tests as forbidden, and drops a second sentence
only when, after the first drop, the new last sentence also tests as
forbidden. -/
theorem C5_fallback_removes_at_most_two (text : String)
    (analysis : AnalysisResult) (st : List Nat) :
    ∃ k : Nat, k ≤ 2
    ∧ (sceneFallbackStep text analysis st).1 =
        (if k = 0 then text
         else if k = 1 then String.intercalate " " (jsSentences text).dropLast
         else String.intercalate " " (jsSentences text).dropLast.dropLast)
    ∧ ((jsSentences text).length ≤ 2 → k = 0)
    ∧ (1 ≤ k → 2 < (jsSentences text).length
        ∧ (someTestG ((jsSentences text).getD ((jsSentences text).length - 1) "")
            FORBIDDEN_PATTERNS st).1 = true)
    ∧ (k = 2 →
        (someTestG ((jsSentences text).dropLast.getD
            ((jsSentences text).dropLast.length - 1) "")
          FORBIDDEN_PATTERNS
          (someTestG ((jsSentences text).getD ((jsSentences text).length - 1) "")
            FORBIDDEN_PATTERNS st).2).1 = true) := by
  by_cases h1 : (analysis.violations.filter
      (fun v => decide (v.vtype = VType.scene_ending))).length > 0
  · by_cases h2 : (jsSentences text).length > 2
    · cases ht1 : (someTestG ((jsSentences text).getD ((jsSentences text).length - 1) "")
          FORBIDDEN_PATTERNS st).1 with
      | false =>
        have ht1' := ht1
        simp only [List.getD_eq_getElem?_getD, List.length_dropLast] at ht1'
        refine ⟨0, by omega, ?_, fun _ => rfl,
          fun h => absurd h (by decide), fun h => absurd h (by decide)⟩
        simp [sceneFallbackStep, h1, h2, ht1']
      | true =>
        have ht1' := ht1
        simp only [List.getD_eq_getElem?_getD, List.length_dropLast] at ht1'
        cases ht2 : (someTestG ((jsSentences text).dropLast.getD
              ((jsSentences text).dropLast.length - 1) "")
            FORBIDDEN_PATTERNS
            (someTestG ((jsSentences text).getD ((jsSentences text).length - 1) "")
              FORBIDDEN_PATTERNS st).2).1 with
        | false =>
          have ht2' := ht2
          simp only [List.getD_eq_getElem?_getD, List.length_dropLast] at ht2'
          refine ⟨1, by omega, ?_, fun h => absurd h (by omega),
            fun _ => ⟨h2, rfl⟩, fun h => absurd h (by decide)⟩
          simp [sceneFallbackStep, h1, h2, ht1', ht2']
        | true =>
          have ht2' := ht2
          simp only [List.getD_eq_getElem?_getD, List.length_dropLast] at ht2'
          refine ⟨2, by omega, ?_, fun h => absurd h (by omega),
            fun _ => ⟨h2, rfl⟩, fun _ => rfl⟩
          simp [sceneFallbackStep, h1, h2, ht1', ht2']
    · refine ⟨0, by omega, ?_, fun _ => rfl,
        fun h => absurd h (by decide), fun h => absurd h (by decide)⟩
      simp [sceneFallbackStep, h1, h2]
  · refine ⟨0, by omega, ?_, fun _ => rfl,
      fun h => absurd h (by decide), fun h => absurd h (by decide)⟩
    simp [sceneFallbackStep, h1]

/-- Witness for C5 at a text whose last sentence is forbidden. -/
theorem C5_fallback_removes_at_most_two_witness :
    ∃ k : Nat, k ≤ 2
    ∧ (sceneFallbackStep "A. B. One day at a time."
        (analyzeMessage "A. B. One day at a time." defaultCfg initState).1 initState).1 =
        (if k = 0 then "A. B. One day at a time."
         else if k = 1 then
           String.intercalate " " (jsSentences "A. B. One day at a time.").dropLast
         else
           String.intercalate " " (jsSentences "A. B. One day at a time.").dropLast.dropLast)
    ∧ ((jsSentences "A. B. One day at a time.").length ≤ 2 → k = 0)
    ∧ (1 ≤ k → 2 < (jsSentences "A. B. One day at a time.").length
        ∧ (someTestG ((jsSentences "A. B. One day at a time.").getD
              ((jsSentences "A. B. One day at a time.").length - 1) "")
            FORBIDDEN_PATTERNS initState).1 = true)
    ∧ (k = 2 →
        (someTestG ((jsSentences "A. B. One day at a time.").dropLast.getD
            ((jsSentences "A. B. One day at a time.").dropLast.length - 1) "")
          FORBIDDEN_PATTERNS
          (someTestG ((jsSentences "A. B. One day at a time.").getD
              ((jsSentences "A. B. One day at a time.").length - 1) "")
            FORBIDDEN_PATTERNS initState).2).1 = true) :=
  C5_fallback_removes_at_most_two "A. B. One day at a time."
    (analyzeMessage "A. B. One day at a time." defaultCfg initState).1 initState

/-! ## Claim C7 -/

/-- C7, confirmed: when the emotion-label patterns match exactly once on
the text, with matched span `"I felt angry"`, the analysis with
`showDontTell` enabled reports exactly one `show_dont_tell` violation,
of medium severity, with that exact matched text. -/
theorem C7_single_emotion_label_violation (text : String) (cfg : GuardConfig)
    (st : List Nat)
    (hshow : cfg.validationRules.showDontTell = true)
    (hm : emotionMatchTexts text = ["I felt angry"]) :
    (analyzeMessage text cfg st).1.violations.filter
        (fun v => decide (v.vtype = VType.show_dont_tell))
      = [⟨VType.show_dont_tell, Severity.medium, none, "I felt angry",
          "Using emotion labels instead of showing through actions/sensations"⟩] := by
  have hemo : checkEmotionLabels text =
      [⟨VType.show_dont_tell, Severity.medium, none, "I felt angry",
        "Using emotion labels instead of showing through actions/sensations"⟩] := by
    unfold checkEmotionLabels
    rw [hm]
    rfl
  have hviol : (analyzeMessage text cfg st).1.violations =
      (if cfg.validationRules.sceneEndings
       then checkSceneEnding (getLastSentences text 3) cfg.strictMode st
       else ([], st)).1
      ++ checkEmotionLabels text
      ++ (if cfg.validationRules.dialogueNaturalness then checkDialogue text else []) := by
    simp [analyzeMessage, hshow]
  rw [hviol, List.filter_append, List.filter_append]
  have hscNil : ((if cfg.validationRules.sceneEndings
      then checkSceneEnding (getLastSentences text 3) cfg.strictMode st
      else ([], st)).1).filter (fun v => decide (v.vtype = VType.show_dont_tell)) = [] := by
    apply List.filter_eq_nil_iff.mpr
    intro v hv
    split at hv
    · simp [checkSceneEnding_vtype hv]
    · exact absurd hv (by simp)
  have hdiaNil : ((if cfg.validationRules.dialogueNaturalness
      then checkDialogue text else []) :
        List Violation).filter (fun v => decide (v.vtype = VType.show_dont_tell)) = [] := by
    apply List.filter_eq_nil_iff.mpr
    intro v hv
    split at hv
    · simp [(checkDialogue_fields hv).1]
    · exact absurd hv (by simp)
  rw [hscNil, hdiaNil, hemo]
  rfl

/-- Witness for C7 at a text whose only emotion-label match is
`"I felt angry"`. -/
theorem C7_single_emotion_label_violation_witness :
    (analyzeMessage "I felt angry." defaultCfg initState).1.violations.filter
        (fun v => decide (v.vtype = VType.show_dont_tell))
      = [⟨VType.show_dont_tell, Severity.medium, none, "I felt angry",
          "Using emotion labels instead of showing through actions/sensations"⟩] :=
  C7_single_emotion_label_violation "I felt angry." defaultCfg initState rfl (by decide)

/-! ## Claim C8 -/

/-- C8, confirmed: `showWarnings` emits nothing on an empty violation
list; on a non-empty list it emits a report, and its three severity
buckets (the filters it groups by) are order-preserving sublists of the
input whose lengths sum to the total violation count. -/
theorem C8_summarize_severity_buckets :
    showWarnings [] = none
    ∧ ∀ vs : List Violation, vs ≠ [] →
        (showWarnings vs).isSome = true
        ∧ (vs.filter (fun v => decide (v.severity = Severity.high))).length
          + (vs.filter (fun v => decide (v.severity = Severity.medium))).length
          + (vs.filter (fun v => decide (v.severity = Severity.low))).length = vs.length
        ∧ List.Sublist (vs.filter (fun v => decide (v.severity = Severity.high))) vs
        ∧ List.Sublist (vs.filter (fun v => decide (v.severity = Severity.medium))) vs
        ∧ List.Sublist (vs.filter (fun v => decide (v.severity = Severity.low))) vs := by
  refine ⟨rfl, ?_⟩
  intro vs hvs
  refine ⟨?_, severity_partition vs, List.filter_sublist vs,
    List.filter_sublist vs, List.filter_sublist vs⟩
  unfold showWarnings
  rw [if_neg (fun h => hvs (List.length_eq_zero.mp h))]
  rfl

/-- Witness for C8 on a concrete one-element violation list. -/
theorem C8_summarize_severity_buckets_witness :
    (showWarnings [(⟨VType.dialogue, Severity.low, none, "x", "m"⟩ : Violation)]).isSome = true
    ∧ ([(⟨VType.dialogue, Severity.low, none, "x", "m"⟩ : Violation)].filter
        (fun v => decide (v.severity = Severity.high))).length
      + ([(⟨VType.dialogue, Severity.low, none, "x", "m"⟩ : Violation)].filter
          (fun v => decide (v.severity = Severity.medium))).length
      + ([(⟨VType.dialogue, Severity.low, none, "x", "m"⟩ : Violation)].filter
          (fun v => decide (v.severity = Severity.low))).length
      = [(⟨VType.dialogue, Severity.low, none, "x", "m"⟩ : Violation)].length
    ∧ List.Sublist ([(⟨VType.dialogue, Severity.low, none, "x", "m"⟩ : Violation)].filter
        (fun v => decide (v.severity = Severity.high)))
        [(⟨VType.dialogue, Severity.low, none, "x", "m"⟩ : Violation)]
    ∧ List.Sublist ([(⟨VType.dialogue, Severity.low, none, "x", "m"⟩ : Violation)].filter
        (fun v => decide (v.severity = Severity.medium)))
        [(⟨VType.dialogue, Severity.low, none, "x", "m"⟩ : Violation)]
    ∧ List.Sublist ([(⟨VType.dialogue, Severity.low, none, "x", "m"⟩ : Violation)].filter
        (fun v => decide (v.severity = Severity.low)))
        [(⟨VType.dialogue, Severity.low, none, "x", "m"⟩ : Violation)] :=
  C8_summarize_severity_buckets.2 [(⟨VType.dialogue, Severity.low, none, "x", "m"⟩ : Violation)]
    (by decide)

/-! ## Claim C10 -/

/-- C10, corrected.  The claim held that after a removal the kept
sentences are re-joined with single spaces *replacing* the original
inter-sentence whitespace.  The re-join does use a single space between
sentences, but each sentence match keeps its original leading whitespace
(the `[^.!?]+` part of the sentence regex matches newlines), so original
whitespace is preserved inside the kept sentences and one extra space is
inserted at each junction rather than replacing anything. -/
theorem C10_rejoin_single_space (text : String) (analysis : AnalysisResult)
    (st : List Nat)
    (hv : 0 < (analysis.violations.filter
        (fun v => decide (v.vtype = VType.scene_ending))).length)
    (hn : 2 < (jsSentences text).length)
    (ht : (someTestG ((jsSentences text).getD ((jsSentences text).length - 1) "")
        FORBIDDEN_PATTERNS st).1 = true) :
    (sceneFallbackStep text analysis st).1 =
      String.intercalate " "
        (if (someTestG ((jsSentences text).dropLast.getD
              ((jsSentences text).dropLast.length - 1) "")
            FORBIDDEN_PATTERNS
            (someTestG ((jsSentences text).getD ((jsSentences text).length - 1) "")
              FORBIDDEN_PATTERNS st).2).1 = true
         then (jsSentences text).dropLast.dropLast
         else (jsSentences text).dropLast) := by
  have ht' := ht
  simp only [List.getD_eq_getElem?_getD, List.length_dropLast] at ht'
  cases ht2 : (someTestG ((jsSentences text).dropLast.getD
        ((jsSentences text).dropLast.length - 1) "")
      FORBIDDEN_PATTERNS
      (someTestG ((jsSentences text).getD ((jsSentences text).length - 1) "")
        FORBIDDEN_PATTERNS st).2).1 with
  | false =>
    have ht2' := ht2
    simp only [List.getD_eq_getElem?_getD, List.length_dropLast] at ht2'
    simp [sceneFallbackStep, hv, hn, ht', ht2']
  | true =>
    have ht2' := ht2
    simp only [List.getD_eq_getElem?_getD, List.length_dropLast] at ht2'
    simp [sceneFallbackStep, hv, hn, ht', ht2']

/-- Witness for C10: the removal on a text with newline-separated
sentences produces the single-space re-join of the kept sentences. -/
theorem C10_rejoin_single_space_witness :
    (sceneFallbackStep "A.\nB.\nC. One day at a time."
      (analyzeMessage "A.\nB.\nC. One day at a time." defaultCfg initState).1 initState).1 =
      String.intercalate " "
        (if (someTestG ((jsSentences "A.\nB.\nC. One day at a time.").dropLast.getD
              ((jsSentences "A.\nB.\nC. One day at a time.").dropLast.length - 1) "")
            FORBIDDEN_PATTERNS
            (someTestG ((jsSentences "A.\nB.\nC. One day at a time.").getD
                ((jsSentences "A.\nB.\nC. One day at a time.").length - 1) "")
              FORBIDDEN_PATTERNS initState).2).1 = true
         then (jsSentences "A.\nB.\nC. One day at a time.").dropLast.dropLast
         else (jsSentences "A.\nB.\nC. One day at a time.").dropLast) :=
  C10_rejoin_single_space "A.\nB.\nC. One day at a time."
    (analyzeMessage "A.\nB.\nC. One day at a time." defaultCfg initState).1 initState
    (by decide) (by decide) (by decide)

/-- Counterexample to C10 as stated: the kept text still contains its
original newlines after removal (they are not replaced by single
spaces), and the result differs from the single-space-separated form the
claim describes. -/
theorem C10_newlines_preserved_counterexample :
    (sceneFallbackStep "A.\nB.\nC. One day at a time."
      (analyzeMessage "A.\nB.\nC. One day at a time." defaultCfg initState).1 initState).1
      = "A. \nB. \nC."
    ∧ '\n' ∈ ("A. \nB. \nC." : String).data
    ∧ "A. \nB. \nC." ≠ "A. B. C." := by decide

end StoryGuardian
